import Mathlib

/-!
Verification development for the agentic translation pipeline
(translation_agents.py, manager_agent.py, specialized_translators.py,
terminology_handler.py, utils.py).

The external language-model provider ("Model Gateway" in the design
document) is modelled as a pure oracle `Gateway : List Message →
Except PyError (String × Nat)` returning the reply text and the token
count the provider reports for the call.  JSON parsing of the manager's
reply (Python's `json.loads` plus dictionary shape) is modelled as an
oracle `JsonParse : String → Option ManagerAnalysis`.

Mutable instance state (`self.total_tokens`, the loaded terminology
dictionary) is threaded explicitly through every operation as a
`PipelineState`.  The state additionally carries `trace`, a ghost list
recording every gateway call that was issued, with the token count the
gateway reported and whether the call went through
`TranslationPipeline._call_xai_api` (which adds the reported tokens to
`self.total_tokens`; `counted := true`) or through
`ManagerAgent._call_xai_api` / `BaseTranslator.call_xai_api` (which do
not touch the pipeline token counter; `counted := false`).  The trace
does not influence any computed value; it only records which calls were
made.
-/

/-- A chat message `{role, content}` as sent to the provider. -/
structure Message where
  role : String
  content : String
deriving DecidableEq, Repr

/-- Python exceptions that the modelled code can raise. -/
inductive PyError where
  | apiError (msg : String)
  | keyError (key : String)
  | indexError
deriving DecidableEq, Repr

/-- Ghost record of one gateway call: the messages sent, the token count
the provider reported, and whether the call was issued through the
pipeline wrapper that adds tokens to `self.total_tokens`. -/
structure GatewayCall where
  messages : List Message
  tokens : Nat
  counted : Bool
deriving DecidableEq, Repr

/-- A terminology dictionary, as an association list in insertion order
(mirroring a Python `dict`). -/
abbrev TermMap := List (String × String)

/-- The mutable state of a `TranslationPipeline` instance:
`self.total_tokens`, the `TerminologyHandler`'s `terminology_dict`, and
the ghost call trace. -/
structure PipelineState where
  total_tokens : Nat
  terminology_dict : TermMap
  trace : List GatewayCall
deriving DecidableEq, Repr

/-- The Model Gateway oracle: one call, returning reply text and the
reported token count, or a transport/provider error. -/
abbrev Gateway := List Message → Except PyError (String × Nat)

/-- `TranslationPipeline._call_xai_api` (translation_agents.py lines
64-86): issues the call and, on success, adds the reported
`usage.total_tokens` to `self.total_tokens`. -/
def callCounted (gw : Gateway) (msgs : List Message) (st : PipelineState) :
    Except PyError String × PipelineState :=
  match gw msgs with
  | .error e => (.error e, st)
  | .ok (text, tok) =>
      (.ok text,
       { st with total_tokens := st.total_tokens + tok,
                 trace := st.trace ++ [⟨msgs, tok, true⟩] })

/-- `ManagerAgent._call_xai_api` (manager_agent.py lines 181-202) and
`BaseTranslator.call_xai_api` (specialized_translators.py lines 15-36):
issue the call but never touch the pipeline's token counter. -/
def callUncounted (gw : Gateway) (msgs : List Message) (st : PipelineState) :
    Except PyError String × PipelineState :=
  match gw msgs with
  | .error e => (.error e, st)
  | .ok (text, tok) =>
      (.ok text, { st with trace := st.trace ++ [⟨msgs, tok, false⟩] })

/-! ## String helpers mirroring the Python primitives used by the code -/

/-- `needle in hay` for strings at the character-list level
(contiguous-segment containment, as Python's `in`). -/
def segIn (needle : List Char) : List Char → Bool
  | [] => needle.isEmpty
  | a :: t => needle.isPrefixOf (a :: t) || segIn needle t

/-- Python's `needle in hay` on strings. -/
def strIn (needle hay : String) : Bool := segIn needle.data hay.data

/-- Python's `s.find(c)` (as an `Option` instead of `-1`). -/
def pyFind (s : String) (c : Char) : Option Nat := s.data.findIdx? (· == c)

/-- Python's `s.rfind(c)` (as an `Option` instead of `-1`). -/
def pyRfind (s : String) (c : Char) : Option Nat :=
  match s.data.reverse.findIdx? (· == c) with
  | none => none
  | some i => some (s.data.length - 1 - i)

/-- Python's slice `s[a:b]`. -/
def pySlice (s : String) (a b : Nat) : String := ⟨(s.data.drop a).take (b - a)⟩

/-- Python's `s[:n]`. -/
def pyTake (s : String) (n : Nat) : String := ⟨s.data.take n⟩

/-- Python's `s.lower()` (ASCII case folding, which covers every name
the code compares). -/
def pyLower (s : String) : String := ⟨s.data.map Char.toLower⟩

/-- Whitespace characters removed by Python's `str.strip()`. -/
def isStripChar (c : Char) : Bool :=
  c == ' ' || c == '\t' || c == '\n' || c == '\r' || c == '\x0b' || c == '\x0c'

/-- Python's `s.strip()`. -/
def pyStrip (s : String) : String :=
  ⟨((s.data.dropWhile isStripChar).reverse.dropWhile isStripChar).reverse⟩

/-- Python's `s.split(c)` (unlimited splits) at the character level. -/
def splitOnChar (c : Char) : List Char → List (List Char)
  | [] => [[]]
  | a :: t =>
      match splitOnChar c t with
      | [] => if a == c then [[], []] else [[a]]
      | h :: r => if a == c then [] :: h :: r else (a :: h) :: r

/-- Split a character list at the first occurrence of `c` (the caller
checks that `c` occurs); mirrors Python's `s.split(c, 1)`. -/
def splitAtFirst (c : Char) : List Char → List Char × List Char
  | [] => ([], [])
  | a :: t =>
      if a == c then ([], t)
      else
        let p := splitAtFirst c t
        (a :: p.1, p.2)

/-! ## TerminologyHandler (terminology_handler.py) -/

/-- Lookup in a Python-dict-like association list. -/
def dictGet : TermMap → String → Option String
  | [], _ => none
  | p :: t, k => if p.1 == k then some p.2 else dictGet t k

/-- Python `d[k] = v` on a dict represented as an association list:
replace the existing binding in place, else append. -/
def dictInsert : TermMap → String → String → TermMap
  | [], k, v => [(k, v)]
  | p :: t, k, v => if p.1 == k then (k, v) :: t else p :: dictInsert t k v

/-- `dict(zip(col0, col1))`: build a dict from rows, later rows
overwriting earlier ones. -/
def dictOfPairs (rows : List (String × String)) : TermMap :=
  rows.foldl (fun m p => dictInsert m p.1 p.2) []

/-- One line of a TXT glossary (`_load_from_txt` body, lines 71-83):
strip, skip blanks and `#` comments, split at the first tab, else at the
first colon, else skip; strip both parts. -/
def parseTxtLine (line : String) : Option (String × String) :=
  let l := pyStrip line
  if l = "" then none
  else if (match l.data with | c :: _ => c == '#' | [] => false) then none
  else if l.data.contains '\t' then
    let p := splitAtFirst '\t' l.data
    some (pyStrip (String.mk p.1), pyStrip (String.mk p.2))
  else if l.data.contains ':' then
    let p := splitAtFirst ':' l.data
    some (pyStrip (String.mk p.1), pyStrip (String.mk p.2))
  else none

/-- `TerminologyHandler._load_from_txt` (lines 67-85): inserts each
parsed pair into the existing `terminology_dict` without clearing it. -/
def load_from_txt (lines : List String) (m : TermMap) : TermMap :=
  lines.foldl
    (fun m line =>
      match parseTxtLine line with
      | none => m
      | some p => dictInsert m p.1 p.2)
    m

/-- A terminology file as seen by `load_terminology`: its path, its raw
text lines (read by the TXT loader), and the two-column rows produced by
the tabular/JSON collaborator parse (pandas / `json.load`), `none` when
that collaborator parse fails. -/
structure TermFile where
  path : String
  lines : List String
  parsedRows : Option (List (String × String))
deriving Repr

/-- `file_path.lower().split('.')[-1]` (line 20). -/
def fileExt (path : String) : String :=
  String.mk ((splitOnChar '.' (pyLower path).data).getLastD [])

/-- `TerminologyHandler._load_from_csv` (lines 33-42): replaces the
whole dictionary with `dict(zip(df.iloc[:,0], df.iloc[:,1]))`. -/
def load_from_csv (f : TermFile) : Except String TermMap :=
  match f.parsedRows with
  | some rows => .ok (dictOfPairs rows)
  | none => .error "Error loading CSV terminology file"

/-- `TerminologyHandler._load_from_json` (lines 44-54): replaces the
whole dictionary with the parsed mapping. -/
def load_from_json (f : TermFile) : Except String TermMap :=
  match f.parsedRows with
  | some rows => .ok (dictOfPairs rows)
  | none => .error "Error loading JSON terminology file"

/-- `TerminologyHandler._load_from_excel` (lines 56-65): replaces the
whole dictionary with `dict(zip(df.iloc[:,0], df.iloc[:,1]))`. -/
def load_from_excel (f : TermFile) : Except String TermMap :=
  match f.parsedRows with
  | some rows => .ok (dictOfPairs rows)
  | none => .error "Error loading Excel terminology file"

/-- `TerminologyHandler.load_terminology` (lines 12-31): dispatch on the
lower-cased extension. -/
def load_terminology (f : TermFile) (m : TermMap) : Except String TermMap :=
  let ext := fileExt f.path
  if ext = "csv" then load_from_csv f
  else if ext = "json" then load_from_json f
  else if ext = "xlsx" ∨ ext = "xls" then load_from_excel f
  else if ext = "txt" then .ok (load_from_txt f.lines m)
  else .error ("Unsupported terminology file format: " ++ ext)

/-! ## Prompt builders (utils.py) -/

/-- `TranslationPipeline.system_role` (translation_agents.py line 45). -/
def pipeline_system_role : String :=
  "You are an expert and experienced translator who knows many languages."

/-- `format_prompt_for_translation` (utils.py lines 30-40). -/
def format_prompt_for_translation (text source_lang target_lang : String) : String :=
  "Translate the following text from " ++ source_lang ++ " to " ++ target_lang ++
  ".\nMaintain the original meaning, tone, and style while ensuring natural flow in the target language. Do not add any additional text or comments.\n\nText to translate:\n"
  ++ text ++ "\n\nTranslation:"

/-- `format_prompt_for_reflection` (utils.py lines 42-59). -/
def format_prompt_for_reflection (original translation : String) : String :=
  "Review the following translation and provide detailed feedback on:\n1. Accuracy of meaning\n2. Natural flow and readability\n3. Cultural appropriateness\n4. Technical terminology (if any)\n5. Areas for improvement\n\nOriginal text:\n"
  ++ original ++ "\n\nTranslation:\n" ++ translation ++ "\n\nFeedback:"

/-- `format_prompt_for_improvement` (utils.py lines 61-76). -/
def format_prompt_for_improvement (original initial_translation reflection : String) : String :=
  "Based on the following feedback, improve the translation while maintaining accuracy and natural flow. Do not add any additional text or comments.\n\nOriginal text:\n"
  ++ original ++ "\n\nInitial translation:\n" ++ initial_translation ++
  "\n\nFeedback:\n" ++ reflection ++ "\n\nImproved translation:"

/-- `format_prompt_for_terminology_check` (utils.py lines 78-93). -/
def format_prompt_for_terminology_check
    (translation : String) (terminology : TermMap) (source_lang target_lang : String) : String :=
  let terminology_list :=
    String.intercalate "\n" (terminology.map (fun p => p.1 ++ ": " ++ p.2))
  "Review the following translation and ensure all terms are translated according to the provided terminology list.\nIf any terms in the translation don\x27t match the terminology list, correct them while maintaining the overall meaning and flow. Do not add any additional text or comments.\n\nTerminology List ("
  ++ source_lang ++ " -> " ++ target_lang ++ "):\n" ++ terminology_list ++
  "\n\nTranslation to check:\n" ++ translation ++
  "\n\nPlease provide the corrected translation with proper terminology usage:"

/-! ## Specialist translators (specialized_translators.py)

Each `XTranslator.translate` builds its prompt, pairs it with the
specialist's system role and issues one gateway call through
`BaseTranslator.call_xai_api`, which does not touch the pipeline token
counter (`callUncounted`). -/

/-- `LiteraryTranslator.system_role` (lines 42-43). -/
def literary_system_role : String :=
  "You are a Literary Translation Specialist with expertise in translating creative works. \nYour role is to preserve the artistic and emotional qualities of the original text while ensuring natural flow in the target language."

/-- `LiteraryTranslator.translate` (lines 45-68). -/
def literary_translator_translate (gw : Gateway) (text source_lang target_lang : String)
    (st : PipelineState) : Except PyError String × PipelineState :=
  let prompt :=
    "Translate the following text from " ++ source_lang ++ " to " ++ target_lang ++
    " with a focus on literary quality:\n\nText to translate:\n" ++ text ++
    "\n\nGuidelines:\n1. Preserve the original\x27s tone, style, and voice\n2. Maintain metaphors, idioms, and cultural references\n3. Ensure the translation flows naturally in the target language\n4. Adapt cultural references appropriately\n5. Preserve the author\x27s unique writing style\n6. Use rich, varied vocabulary\n7. Maintain the original\x27s rhythm and flow\n8. Preserve literary devices (alliteration, assonance, etc.)\n\nTranslation:"
  callUncounted gw [⟨"system", literary_system_role⟩, ⟨"user", prompt⟩] st

/-- `LegalTranslator.system_role` (lines 74-75). -/
def legal_system_role : String :=
  "You are a Legal Translation Specialist with expertise in translating legal documents. \nYour role is to ensure precise and accurate translation of legal terminology while maintaining the formal and professional tone required in legal documents."

/-- `LegalTranslator.translate` (lines 77-100). -/
def legal_translator_translate (gw : Gateway) (text source_lang target_lang : String)
    (st : PipelineState) : Except PyError String × PipelineState :=
  let prompt :=
    "Translate the following text from " ++ source_lang ++ " to " ++ target_lang ++
    " with a focus on legal accuracy:\n\nText to translate:\n" ++ text ++
    "\n\nGuidelines:\n1. Maintain precise legal terminology\n2. Ensure consistent use of legal terms\n3. Preserve the exact meaning of legal concepts\n4. Follow legal translation conventions\n5. Maintain formal and professional tone\n6. Use appropriate legal terminology\n7. Ensure compliance with legal requirements\n8. Avoid ambiguity in legal terms\n\nTranslation:"
  callUncounted gw [⟨"system", legal_system_role⟩, ⟨"user", prompt⟩] st

/-- `MasterTranslator.system_role` (lines 106-107). -/
def master_system_role : String :=
  "You are a Master Translator with expertise in multiple translation styles and domains.\nYou can adapt your translation approach based on the specific requirements and style guidelines provided."

/-- `MasterTranslator.translate` (lines 109-137): the only specialist
parameterized by the manager's guideline and requirement lists. -/
def master_translator_translate (gw : Gateway) (text source_lang target_lang : String)
    (style_guidelines quality_requirements : List String)
    (st : PipelineState) : Except PyError String × PipelineState :=
  let guidelines_str :=
    String.intercalate "\n" (style_guidelines.map (fun g => "- " ++ g))
  let requirements_str :=
    String.intercalate "\n" (quality_requirements.map (fun r => "- " ++ r))
  let prompt :=
    "Translate the following text from " ++ source_lang ++ " to " ++ target_lang ++
    " following these specific guidelines:\n\nText to translate:\n" ++ text ++
    "\n\nStyle Guidelines:\n" ++ guidelines_str ++
    "\n\nQuality Requirements:\n" ++ requirements_str ++
    "\n\nPlease provide a translation that:\n1. Follows all style guidelines precisely\n2. Meets all quality requirements\n3. Maintains the original meaning and intent\n4. Adapts appropriately to the target language and culture\n\nTranslation:"
  callUncounted gw [⟨"system", master_system_role⟩, ⟨"user", prompt⟩] st

/-- `NewsTranslator.system_role` (lines 143-144). -/
def news_system_role : String :=
  "You are a News Translation Specialist with expertise in translating news articles and journalistic content.\nYour role is to maintain journalistic style, accuracy, and immediacy while adapting content for different cultural contexts."

/-- `NewsTranslator.translate` (lines 146-169). -/
def news_translator_translate (gw : Gateway) (text source_lang target_lang : String)
    (st : PipelineState) : Except PyError String × PipelineState :=
  let prompt :=
    "Translate the following text from " ++ source_lang ++ " to " ++ target_lang ++
    " with a focus on news/journalistic style:\n\nText to translate:\n" ++ text ++
    "\n\nGuidelines:\n1. Maintain journalistic style and tone\n2. Preserve news value and immediacy\n3. Adapt cultural references appropriately\n4. Use clear, concise language\n5. Maintain factual accuracy\n6. Follow news writing conventions\n7. Use appropriate news terminology\n8. Ensure cultural sensitivity\n\nTranslation:"
  callUncounted gw [⟨"system", news_system_role⟩, ⟨"user", prompt⟩] st

/-- `AcademicTranslator.system_role` (lines 175-176). -/
def academic_system_role : String :=
  "You are an Academic Translation Specialist with expertise in translating scholarly works.\nYour role is to maintain academic rigor, precision, and formal tone while ensuring accessibility in the target language."

/-- `AcademicTranslator.translate` (lines 178-201). -/
def academic_translator_translate (gw : Gateway) (text source_lang target_lang : String)
    (st : PipelineState) : Except PyError String × PipelineState :=
  let prompt :=
    "Translate the following text from " ++ source_lang ++ " to " ++ target_lang ++
    " with a focus on academic style:\n\nText to translate:\n" ++ text ++
    "\n\nGuidelines:\n1. Maintain academic tone and formality\n2. Preserve technical terminology\n3. Ensure precise meaning of concepts\n4. Follow academic writing conventions\n5. Maintain citation formats\n6. Use appropriate academic terminology\n7. Preserve theoretical frameworks\n8. Ensure consistency in terminology\n\nTranslation:"
  callUncounted gw [⟨"system", academic_system_role⟩, ⟨"user", prompt⟩] st

/-- `TechnicalTranslator.system_role` (lines 207-208). -/
def technical_system_role : String :=
  "You are a Technical Translation Specialist with expertise in translating technical documentation.\nYour role is to maintain technical accuracy while ensuring clarity and usability in the target language."

/-- `TechnicalTranslator.translate` (lines 210-233). -/
def technical_translator_translate (gw : Gateway) (text source_lang target_lang : String)
    (st : PipelineState) : Except PyError String × PipelineState :=
  let prompt :=
    "Translate the following text from " ++ source_lang ++ " to " ++ target_lang ++
    " with a focus on technical accuracy:\n\nText to translate:\n" ++ text ++
    "\n\nGuidelines:\n1. Maintain technical precision\n2. Use consistent terminology\n3. Preserve technical specifications\n4. Follow technical writing conventions\n5. Ensure clarity of instructions\n6. Maintain formatting and structure\n7. Use appropriate technical terminology\n8. Preserve measurement units and standards\n\nTranslation:"
  callUncounted gw [⟨"system", technical_system_role⟩, ⟨"user", prompt⟩] st

/-- `MedicalTranslator.system_role` (lines 239-240). -/
def medical_system_role : String :=
  "You are a Medical Translation Specialist with expertise in translating medical content.\nYour role is to maintain medical accuracy while ensuring clarity and sensitivity in the target language."

/-- `MedicalTranslator.translate` (lines 242-265). -/
def medical_translator_translate (gw : Gateway) (text source_lang target_lang : String)
    (st : PipelineState) : Except PyError String × PipelineState :=
  let prompt :=
    "Translate the following text from " ++ source_lang ++ " to " ++ target_lang ++
    " with a focus on medical accuracy:\n\nText to translate:\n" ++ text ++
    "\n\nGuidelines:\n1. Maintain medical terminology accuracy\n2. Preserve clinical precision\n3. Ensure patient safety\n4. Follow medical writing conventions\n5. Use appropriate medical terminology\n6. Maintain sensitivity to patient information\n7. Preserve medical measurements and units\n8. Ensure compliance with medical standards\n\nTranslation:"
  callUncounted gw [⟨"system", medical_system_role⟩, ⟨"user", prompt⟩] st

/-- `MarketingTranslator.system_role` (lines 271-272). -/
def marketing_system_role : String :=
  "You are a Marketing Translation Specialist with expertise in translating marketing content.\nYour role is to maintain brand voice and marketing impact while adapting content for different cultural markets."

/-- `MarketingTranslator.translate` (lines 274-297). -/
def marketing_translator_translate (gw : Gateway) (text source_lang target_lang : String)
    (st : PipelineState) : Except PyError String × PipelineState :=
  let prompt :=
    "Translate the following text from " ++ source_lang ++ " to " ++ target_lang ++
    " with a focus on marketing effectiveness:\n\nText to translate:\n" ++ text ++
    "\n\nGuidelines:\n1. Maintain brand voice and tone\n2. Preserve marketing impact\n3. Adapt cultural references appropriately\n4. Follow marketing writing conventions\n5. Use persuasive language\n6. Maintain emotional appeal\n7. Preserve call-to-action effectiveness\n8. Ensure cultural appropriateness\n\nTranslation:"
  callUncounted gw [⟨"system", marketing_system_role⟩, ⟨"user", prompt⟩] st

/-- `BusinessTranslator.system_role` (lines 303-304). -/
def business_system_role : String :=
  "You are a Business Translation Specialist with expertise in translating business content.\nYour role is to maintain professional tone and business accuracy while ensuring cultural appropriateness."

/-- `BusinessTranslator.translate` (lines 306-329). -/
def business_translator_translate (gw : Gateway) (text source_lang target_lang : String)
    (st : PipelineState) : Except PyError String × PipelineState :=
  let prompt :=
    "Translate the following text from " ++ source_lang ++ " to " ++ target_lang ++
    " with a focus on business communication:\n\nText to translate:\n" ++ text ++
    "\n\nGuidelines:\n1. Maintain professional tone\n2. Preserve business terminology\n3. Ensure cultural appropriateness\n4. Follow business writing conventions\n5. Use appropriate business terminology\n6. Maintain formal communication style\n7. Preserve business metrics and units\n8. Ensure clarity in business context\n\nTranslation:"
  callUncounted gw [⟨"system", business_system_role⟩, ⟨"user", prompt⟩] st

/-! ## ManagerAgent (manager_agent.py) -/

/-- The structured analysis dictionary produced by parsing the Style
Manager's reply.  Each field is `Option`al because the parsed JSON
object may lack the corresponding key (a missing key later raises
`KeyError` where the code subscripts it).  `detected_style` collapses
the Python cases "key absent" and "value None" into `none`, which is
exactly how the code treats them (`_parse_response` fills an absent key
with `None`, and `translate` only tests truthiness). -/
structure ManagerAnalysis where
  selected_translators : Option (List String)
  style_guidelines : Option (List String)
  quality_requirements : Option (List String)
  reasoning : Option String
  detected_style : Option String
deriving DecidableEq, Repr

/-- Oracle for `json.loads` plus the dictionary-shape reading of the
result; `none` models any `json.loads` failure or a non-dictionary
value. -/
abbrev JsonParse := String → Option ManagerAnalysis

/-- Lines 283-288 of `_parse_response`: locate the JSON object between
the first `\x7b` and the last `\x7d`; `none` when either is absent
(the raised `ValueError` is caught by the same handler as a parse
failure). -/
def braceExtract (response : String) : Option String :=
  match pyFind response '\x7b', pyRfind response '\x7d' with
  | some s, some e => some (pySlice response s (e + 1))
  | _, _ => none

/-- The default analysis returned by `_parse_response` when parsing
fails (lines 299-308). -/
def default_parse_analysis : ManagerAnalysis :=
  { selected_translators := some ["General Translator"],
    style_guidelines := some ["Maintain professional tone", "Ensure accuracy"],
    quality_requirements := some ["High accuracy", "Natural flow"],
    reasoning := some "Using default settings due to parsing error",
    detected_style := none }

/-- `ManagerAgent._parse_response` (lines 279-308). -/
def parse_response (jp : JsonParse) (response : String) : ManagerAnalysis :=
  match braceExtract response with
  | none => default_parse_analysis
  | some json_str =>
      match jp json_str with
      | none => default_parse_analysis
      | some parsed =>
          { parsed with
            reasoning := some (parsed.reasoning.getD "No specific reasoning provided") }

/-- The `available_translators` dictionary of `analyze_brief`
(lines 35-45), in insertion order. -/
def available_translators : List (String × String) :=
  [("Legal", "Legal Translator"),
   ("Literary", "Literary Translator"),
   ("Business", "Business Translator"),
   ("Technical", "Technical Translator"),
   ("Medical", "Medical Translator"),
   ("News", "News Translator"),
   ("Academic", "Academic Translator"),
   ("Marketing", "Marketing Translator"),
   ("Master Translator", "Master Translator")]

/-- The inner loop of `analyze_brief` (lines 108-118): the first
registry entry whose type name occurs case-insensitively inside the
returned translator name wins; no match falls back to
"Master Translator". -/
def map_translator_name (translator : String) : String :=
  match available_translators.find?
      (fun p => strIn (pyLower p.1) (pyLower translator)) with
  | some p => p.2
  | none => "Master Translator"

/-- The note appended to the reasoning after mapping (line 122). -/
def mapping_note : String :=
  "\nNote: Some requested translators were mapped to available specialists or the Master Translator."

/-- `ManagerAgent` system message (line 97). -/
def manager_system_role : String :=
  "You are an experienced Translation Project Manager who specializes in coordinating translation projects."

/-- `', '.join(available_translators.keys())`. -/
def available_translator_keys : String :=
  String.intercalate ", " (available_translators.map (fun p => p.1))

/-- The auto-detect prompt of `analyze_brief` (lines 49-71). -/
def manager_auto_prompt (source_text : String) : String :=
  "As a Translation Project Manager, analyze the following text and determine its style and appropriate translation approach:\n\nText to analyze:\n"
  ++ pyTake source_text 1000 ++
  "  # Analyze first 1000 characters for efficiency\n\nAvailable translators:\n"
  ++ available_translator_keys ++
  "\n\nPlease provide:\n1. The detected style/type of the text (choose from available types or specify if none match)\n2. A list of specialized translators needed (prioritize using available translators)\n3. Specific style guidelines to follow\n4. Quality requirements and standards to maintain\n5. Detailed reasoning for your decisions, including why you chose this particular translator type\n\nFormat your response as a JSON object with the following structure:\n\x7b\n    \"detected_style\": \"style_name\",\n    \"selected_translators\": [\"translator1\", \"translator2\"],\n    \"style_guidelines\": [\"guideline1\", \"guideline2\"],\n    \"quality_requirements\": [\"requirement1\", \"requirement2\"],\n    \"reasoning\": \"explanation of decisions\"\n\x7d"

/-- The brief-based prompt of `analyze_brief` (lines 74-94). -/
def manager_brief_prompt (translation_type brief : String) : String :=
  "As a Translation Project Manager, analyze the following translation brief and determine the best approach:\n\nTranslation Type: "
  ++ translation_type ++ "\nBrief: " ++ brief ++
  "\n\nAvailable translators:\n" ++ available_translator_keys ++
  "\n\nPlease provide:\n1. A list of specialized translators needed (prioritize using available translators)\n2. Specific style guidelines to follow\n3. Quality requirements and standards to maintain\n4. Detailed reasoning for your decisions\n\nFormat your response as a JSON object with the following structure:\n\x7b\n    \"selected_translators\": [\"translator1\", \"translator2\"],\n    \"style_guidelines\": [\"guideline1\", \"guideline2\"],\n    \"quality_requirements\": [\"requirement1\", \"requirement2\"],\n    \"reasoning\": \"explanation of decisions\"\n\x7d"

/-- The messages `analyze_brief` sends (lines 47-99): auto-detect prompt
when `translation_type == "Help me to decide"` or (`brief` is empty and
`source_text` is non-empty), else the brief-based prompt. -/
def manager_messages (translation_type brief source_text : String) : List Message :=
  let prompt :=
    if translation_type = "Help me to decide" ∨ (brief = "" ∧ source_text ≠ "") then
      manager_auto_prompt source_text
    else
      manager_brief_prompt translation_type brief
  [⟨"system", manager_system_role⟩, ⟨"user", prompt⟩]

/-- `ManagerAgent.analyze_brief` (lines 16-124): one gateway call (not
counted into the pipeline token counter), response parsing with the
default fallback, and the translator-name mapping applied when the
`selected_translators` key is present. -/
def analyze_brief (gw : Gateway) (jp : JsonParse)
    (translation_type brief source_text : String) (st : PipelineState) :
    Except PyError ManagerAnalysis × PipelineState :=
  match callUncounted gw (manager_messages translation_type brief source_text) st with
  | (.error e, st1) => (.error e, st1)
  | (.ok response, st1) =>
      let analysis := parse_response jp response
      let analysis :=
        match analysis.selected_translators with
        | none => analysis
        | some sel =>
            { analysis with
              selected_translators := some (sel.map map_translator_name),
              reasoning :=
                match analysis.reasoning with
                | some r => some (r ++ mapping_note)
                | none => analysis.reasoning }
      (.ok analysis, st1)

/-! ## TranslationPipeline (translation_agents.py) -/

/-- One `{"step": ..., "result": ...}` entry of a chunk's `steps`
list. -/
structure StepRecord where
  step : String
  result : String
deriving DecidableEq, Repr

/-- One entry of `translation_details` (`chunk_details`,
lines 207-216). -/
structure ChunkDetails where
  chunk_number : Nat
  original_text : String
  translation_type : String
  selected_translators : List String
  style_guidelines : List String
  quality_requirements : List String
  manager_reasoning : String
  steps : List StepRecord
deriving DecidableEq, Repr

/-- The `details` dictionary returned by `translate` (lines 268-277).
`total_time` is wall-clock time and is not modelled. -/
structure SessionDetails where
  total_tokens : Nat
  translation_type : String
  selected_translators : List String
  style_guidelines : List String
  quality_requirements : List String
  manager_reasoning : String
  chunks : List ChunkDetails
deriving DecidableEq, Repr

/-- An empty `ChunkDetails`, used only as the default of positional
`getD` lookups in theorem statements. -/
def emptyChunkDetails : ChunkDetails :=
  { chunk_number := 0, original_text := "", translation_type := "",
    selected_translators := [], style_guidelines := [],
    quality_requirements := [], manager_reasoning := "", steps := [] }

/-- `TranslationPipeline._initial_translation_with_specialist`
(lines 285-300): dispatch on the lower-cased resolved translation type;
the Master translator handles both the explicit "master translator" type
and any call where both the guideline and the requirement lists are
non-empty (Python truthiness of the two lists); everything else goes to
the generic default prompt through the pipeline's own (token-counting)
wrapper. -/
def initial_translation_with_specialist (gw : Gateway)
    (text source_lang target_lang translation_type : String)
    (style_guidelines quality_requirements : List String)
    (st : PipelineState) : Except PyError String × PipelineState :=
  if pyLower translation_type = "literary" then
    literary_translator_translate gw text source_lang target_lang st
  else if pyLower translation_type = "legal" then
    legal_translator_translate gw text source_lang target_lang st
  else if pyLower translation_type = "master translator" ∨
      (style_guidelines ≠ [] ∧ quality_requirements ≠ []) then
    master_translator_translate gw text source_lang target_lang
      style_guidelines quality_requirements st
  else
    callCounted gw
      [⟨"system", pipeline_system_role⟩,
       ⟨"user", format_prompt_for_translation text source_lang target_lang⟩] st

/-- `TranslationPipeline._reflect_on_translation` (lines 302-312). -/
def reflect_on_translation (gw : Gateway) (original translation : String)
    (st : PipelineState) : Except PyError String × PipelineState :=
  callCounted gw
    [⟨"system", pipeline_system_role⟩,
     ⟨"user", format_prompt_for_reflection original translation⟩] st

/-- `TranslationPipeline._improve_translation` (lines 314-324). -/
def improve_translation (gw : Gateway)
    (original initial_translation reflection : String)
    (st : PipelineState) : Except PyError String × PipelineState :=
  callCounted gw
    [⟨"system", pipeline_system_role⟩,
     ⟨"user", format_prompt_for_improvement original initial_translation reflection⟩] st

/-- `TranslationPipeline._check_terminology` (lines 326-343): a no-op
returning its input when `terminology_dict` is empty, else one counted
call carrying the full glossary (`get_all_terms` returns a copy of the
dictionary, which an association-list value models directly). -/
def check_terminology (gw : Gateway) (translation source_lang target_lang : String)
    (st : PipelineState) : Except PyError String × PipelineState :=
  if st.terminology_dict = [] then
    (.ok translation, st)
  else
    callCounted gw
      [⟨"system", pipeline_system_role⟩,
       ⟨"user", format_prompt_for_terminology_check translation
                  st.terminology_dict source_lang target_lang⟩] st

/-- The loop body of `translate` (lines 205-259) for the chunk at
0-based index `i`: the four refinement stages in order, each appending
one entry to the chunk's `steps` list; any stage failure re-raises. -/
def processOneChunk (gw : Gateway) (source_lang target_lang translation_type : String)
    (style_guidelines quality_requirements selected_translators' : List String)
    (manager_reasoning : String) (chunk : String) (i : Nat) (st : PipelineState) :
    Except PyError (String × ChunkDetails) × PipelineState :=
  match initial_translation_with_specialist gw chunk source_lang target_lang
      translation_type style_guidelines quality_requirements st with
  | (.error e, st1) => (.error e, st1)
  | (.ok initial_translation, st1) =>
      match reflect_on_translation gw chunk initial_translation st1 with
      | (.error e, st2) => (.error e, st2)
      | (.ok reflection, st2) =>
          match improve_translation gw chunk initial_translation reflection st2 with
          | (.error e, st3) => (.error e, st3)
          | (.ok improved_translation, st3) =>
              match check_terminology gw improved_translation source_lang target_lang st3 with
              | (.error e, st4) => (.error e, st4)
              | (.ok final_translation, st4) =>
                  (.ok (final_translation,
                        { chunk_number := i + 1,
                          original_text := chunk,
                          translation_type := translation_type,
                          selected_translators := selected_translators',
                          style_guidelines := style_guidelines,
                          quality_requirements := quality_requirements,
                          manager_reasoning := manager_reasoning,
                          steps :=
                            [⟨"Initial Translation", initial_translation⟩,
                             ⟨"Reflection", reflection⟩,
                             ⟨"Improved Translation", improved_translation⟩,
                             ⟨"Terminology Check", final_translation⟩] }), st4)

/-- The `for i, chunk in enumerate(text)` loop of `translate`: processes
the chunks in order, accumulating `translated_chunks` and
`translation_details`; the first failure aborts the whole loop and every
accumulated result is dropped from the returned value. -/
def processChunks (gw : Gateway) (source_lang target_lang translation_type : String)
    (style_guidelines quality_requirements selected_translators' : List String)
    (manager_reasoning : String) :
    List String → Nat → PipelineState →
    Except PyError (List String × List ChunkDetails) × PipelineState
  | [], _, st => (.ok ([], []), st)
  | chunk :: rest, i, st =>
      match processOneChunk gw source_lang target_lang translation_type
          style_guidelines quality_requirements selected_translators'
          manager_reasoning chunk i st with
      | (.error e, st1) => (.error e, st1)
      | (.ok (final_translation, chunk_details), st1) =>
          match processChunks gw source_lang target_lang translation_type
              style_guidelines quality_requirements selected_translators'
              manager_reasoning rest (i + 1) st1 with
          | (.error e, st2) => (.error e, st2)
          | (.ok (finals, dets), st2) =>
              (.ok (final_translation :: finals, chunk_details :: dets), st2)

/-- The session-wide routing outcome extracted from the manager analysis
(lines 196-203 of `translate`). -/
structure SetupResult where
  resolved_type : String
  selected_translators : List String
  style_guidelines : List String
  quality_requirements : List String
  manager_reasoning : String
deriving DecidableEq, Repr

/-- Line 190 of `translate`:
`text[0] if translation_type == "Help me to decide" else (text[0] if not
brief else "")`; `text[0]` raises `IndexError` on an empty list when the
chosen conditional branch evaluates it. -/
def sessionSample (text : List String) (translation_type brief : String) :
    Except PyError String :=
  if translation_type = "Help me to decide" then
    match text.head? with
    | none => .error .indexError
    | some t => .ok t
  else if brief = "" then
    match text.head? with
    | none => .error .indexError
    | some t => .ok t
  else .ok ""

/-- Lines 188-203 of `translate`: choose the text sample for analysis,
run `analyze_brief`, override the translation type with a non-empty
detected style when no brief was given or auto-detect was requested, and
read the four routing fields out of the analysis dictionary (a missing
key raises `KeyError`). -/
def sessionSetup (gw : Gateway) (jp : JsonParse) (text : List String)
    (translation_type brief : String) (st : PipelineState) :
    Except PyError SetupResult × PipelineState :=
  match sessionSample text translation_type brief with
  | .error e => (.error e, st)
  | .ok source_text_for_analysis =>
      match analyze_brief gw jp translation_type brief source_text_for_analysis st with
      | (.error e, st1) => (.error e, st1)
      | (.ok analysis, st1) =>
          let resolved_type :=
            if (brief = "" ∨ translation_type = "Help me to decide") then
              match analysis.detected_style with
              | some s => if s ≠ "" then s else translation_type
              | none => translation_type
            else translation_type
          match analysis.selected_translators with
          | none => (.error (.keyError "selected_translators"), st1)
          | some sel =>
              match analysis.style_guidelines with
              | none => (.error (.keyError "style_guidelines"), st1)
              | some sg =>
                  match analysis.quality_requirements with
                  | none => (.error (.keyError "quality_requirements"), st1)
                  | some qr =>
                      match analysis.reasoning with
                      | none => (.error (.keyError "reasoning"), st1)
                      | some rsn =>
                          (.ok { resolved_type := resolved_type,
                                 selected_translators := sel,
                                 style_guidelines := sg,
                                 quality_requirements := qr,
                                 manager_reasoning := rsn }, st1)

/-- `TranslationPipeline.translate` (lines 172-283): reset the token
counter, run the manager once, process every chunk through the four
stages, and return the chunk translations joined with `"\n"` together
with the details dictionary.  Any exception propagates to the caller
unchanged and the accumulated results are not returned (the second
component is the instance state left behind, which Python also keeps on
an exception). -/
def TranslationPipeline.translate (gw : Gateway) (jp : JsonParse) (text : List String)
    (source_lang target_lang translation_type brief : String)
    (st0 : PipelineState) :
    Except PyError (String × SessionDetails) × PipelineState :=
  match sessionSetup gw jp text translation_type brief
      { st0 with total_tokens := 0 } with
  | (.error e, st1) => (.error e, st1)
  | (.ok setup, st1) =>
      match processChunks gw source_lang target_lang setup.resolved_type
          setup.style_guidelines setup.quality_requirements
          setup.selected_translators setup.manager_reasoning text 0 st1 with
      | (.error e, st2) => (.error e, st2)
      | (.ok (translated_chunks, dets), st2) =>
          (.ok (String.intercalate "\n" translated_chunks,
                { total_tokens := st2.total_tokens,
                  translation_type := setup.resolved_type,
                  selected_translators := setup.selected_translators,
                  style_guidelines := setup.style_guidelines,
                  quality_requirements := setup.quality_requirements,
                  manager_reasoning := setup.manager_reasoning,
                  chunks := dets }), st2)

/-! ## State invariants

`StExt st st'` says the state evolved from `st` to `st'` by appending
some gateway calls to the trace, adding exactly the counted calls'
token counts to `total_tokens`, and leaving the terminology dictionary
untouched.  Every operation of the pipeline preserves it. -/

/-- Sum of the token counts of the calls that went through the
pipeline's counting wrapper. -/
def countedSum (tr : List GatewayCall) : Nat :=
  (tr.map (fun c => if c.counted then c.tokens else 0)).sum

/-- Sum of the token counts reported by all gateway calls of a trace. -/
def allTokenSum (tr : List GatewayCall) : Nat :=
  (tr.map (fun c => c.tokens)).sum

theorem countedSum_append (a b : List GatewayCall) :
    countedSum (a ++ b) = countedSum a + countedSum b := by
  simp [countedSum]

/-- The state-evolution invariant. -/
def StExt (st st' : PipelineState) : Prop :=
  st'.terminology_dict = st.terminology_dict ∧
  ∃ Δ, st'.trace = st.trace ++ Δ ∧
    st'.total_tokens = st.total_tokens + countedSum Δ

theorem stExt_refl (st : PipelineState) : StExt st st :=
  ⟨rfl, [], by simp, by simp [countedSum]⟩

theorem stExt_trans {a b c : PipelineState} (h1 : StExt a b) (h2 : StExt b c) :
    StExt a c := by
  obtain ⟨hd1, Δ1, ht1, hk1⟩ := h1
  obtain ⟨hd2, Δ2, ht2, hk2⟩ := h2
  refine ⟨hd2.trans hd1, Δ1 ++ Δ2, ?_, ?_⟩
  · rw [ht2, ht1, List.append_assoc]
  · rw [hk2, hk1, countedSum_append]; omega

theorem callCounted_ext (gw : Gateway) (msgs : List Message) (st : PipelineState) :
    StExt st (callCounted gw msgs st).2 := by
  unfold callCounted
  rcases gw msgs with e | ⟨t, k⟩
  · exact stExt_refl st
  · exact ⟨rfl, [⟨msgs, k, true⟩], rfl, by simp [countedSum]⟩

theorem callUncounted_ext (gw : Gateway) (msgs : List Message) (st : PipelineState) :
    StExt st (callUncounted gw msgs st).2 := by
  unfold callUncounted
  rcases gw msgs with e | ⟨t, k⟩
  · exact stExt_refl st
  · exact ⟨rfl, [⟨msgs, k, false⟩], rfl, by simp [countedSum]⟩

theorem initial_translation_ext (gw : Gateway)
    (text sl tl tt : String) (sg qr : List String) (st : PipelineState) :
    StExt st (initial_translation_with_specialist gw text sl tl tt sg qr st).2 := by
  unfold initial_translation_with_specialist
  split
  · exact callUncounted_ext gw _ st
  · split
    · exact callUncounted_ext gw _ st
    · split
      · exact callUncounted_ext gw _ st
      · exact callCounted_ext gw _ st

theorem reflect_ext (gw : Gateway) (o t : String) (st : PipelineState) :
    StExt st (reflect_on_translation gw o t st).2 :=
  callCounted_ext gw _ st

theorem improve_ext (gw : Gateway) (o i r : String) (st : PipelineState) :
    StExt st (improve_translation gw o i r st).2 :=
  callCounted_ext gw _ st

theorem check_terminology_ext (gw : Gateway) (t sl tl : String) (st : PipelineState) :
    StExt st (check_terminology gw t sl tl st).2 := by
  unfold check_terminology
  split
  · exact stExt_refl st
  · exact callCounted_ext gw _ st

theorem analyze_brief_ext (gw : Gateway) (jp : JsonParse)
    (tt br src : String) (st : PipelineState) :
    StExt st (analyze_brief gw jp tt br src st).2 := by
  unfold analyze_brief
  rcases h : callUncounted gw (manager_messages tt br src) st with ⟨res, st1⟩
  have hx := callUncounted_ext gw (manager_messages tt br src) st
  rw [h] at hx
  cases res <;> exact hx

theorem processOneChunk_ext (gw : Gateway) (sl tl tt : String)
    (sg qr seltr : List String) (rsn chunk : String) (i : Nat) (st : PipelineState) :
    StExt st (processOneChunk gw sl tl tt sg qr seltr rsn chunk i st).2 := by
  unfold processOneChunk
  split
  next e st1 h1 =>
    have e1 := initial_translation_ext gw chunk sl tl tt sg qr st
    rw [h1] at e1
    exact e1
  next draft st1 h1 =>
    have e1 := initial_translation_ext gw chunk sl tl tt sg qr st
    rw [h1] at e1
    split
    next e st2 h2 =>
      have e2 := reflect_ext gw chunk draft st1
      rw [h2] at e2
      exact stExt_trans e1 e2
    next refl st2 h2 =>
      have e2 := reflect_ext gw chunk draft st1
      rw [h2] at e2
      split
      next e st3 h3 =>
        have e3 := improve_ext gw chunk draft refl st2
        rw [h3] at e3
        exact stExt_trans e1 (stExt_trans e2 e3)
      next improved st3 h3 =>
        have e3 := improve_ext gw chunk draft refl st2
        rw [h3] at e3
        split
        next e st4 h4 =>
          have e4 := check_terminology_ext gw improved sl tl st3
          rw [h4] at e4
          exact stExt_trans e1 (stExt_trans e2 (stExt_trans e3 e4))
        next final st4 h4 =>
          have e4 := check_terminology_ext gw improved sl tl st3
          rw [h4] at e4
          exact stExt_trans e1 (stExt_trans e2 (stExt_trans e3 e4))

theorem processChunks_ext (gw : Gateway) (sl tl tt : String)
    (sg qr seltr : List String) (rsn : String) :
    ∀ (chunks : List String) (i : Nat) (st : PipelineState),
    StExt st (processChunks gw sl tl tt sg qr seltr rsn chunks i st).2 := by
  intro chunks
  induction chunks with
  | nil => intro i st; exact stExt_refl st
  | cons c rest ih =>
      intro i st
      unfold processChunks
      split
      next e st1 h1 =>
        have e1 := processOneChunk_ext gw sl tl tt sg qr seltr rsn c i st
        rw [h1] at e1
        exact e1
      next final det st1 h1 =>
        have e1 := processOneChunk_ext gw sl tl tt sg qr seltr rsn c i st
        rw [h1] at e1
        split
        next e st2 h2 =>
          have e2 := ih (i + 1) st1
          rw [h2] at e2
          exact stExt_trans e1 e2
        next finals dets st2 h2 =>
          have e2 := ih (i + 1) st1
          rw [h2] at e2
          exact stExt_trans e1 e2

theorem sessionSetup_ext (gw : Gateway) (jp : JsonParse) (text : List String)
    (tt br : String) (st : PipelineState) :
    StExt st (sessionSetup gw jp text tt br st).2 := by
  unfold sessionSetup
  split
  · exact stExt_refl st
  next src h0 =>
    split
    next e st1 h =>
      have hx := analyze_brief_ext gw jp tt br src st
      rw [h] at hx
      exact hx
    next analysis st1 h =>
      have hx := analyze_brief_ext gw jp tt br src st
      rw [h] at hx
      obtain ⟨sel, sg, qr, rsn, ds⟩ := analysis
      cases sel <;> cases sg <;> cases qr <;> cases rsn <;> exact hx

/-- The terminology dictionary is untouched by a whole `translate`
session, and the state evolution from the token-counter reset onwards
satisfies the invariant. -/
theorem translate_ext (gw : Gateway) (jp : JsonParse) (text : List String)
    (sl tl tt br : String) (st0 : PipelineState) :
    StExt { st0 with total_tokens := 0 }
      (TranslationPipeline.translate gw jp text sl tl tt br st0).2 := by
  unfold TranslationPipeline.translate
  split
  next e st1 h =>
    have e1 := sessionSetup_ext gw jp text tt br { st0 with total_tokens := 0 }
    rw [h] at e1
    exact e1
  next setup st1 h =>
    have e1 := sessionSetup_ext gw jp text tt br { st0 with total_tokens := 0 }
    rw [h] at e1
    split
    next e st2 h2 =>
      have e2 := processChunks_ext gw sl tl setup.resolved_type
        setup.style_guidelines setup.quality_requirements
        setup.selected_translators setup.manager_reasoning text 0 st1
      rw [h2] at e2
      exact stExt_trans e1 e2
    next finals dets st2 h2 =>
      have e2 := processChunks_ext gw sl tl setup.resolved_type
        setup.style_guidelines setup.quality_requirements
        setup.selected_translators setup.manager_reasoning text 0 st1
      rw [h2] at e2
      exact stExt_trans e1 e2

/-! ## Shape of a completed session -/

/-- The finalized text of a completed chunk record: the result of its
last recorded step. -/
def chunkFinalText (c : ChunkDetails) : String :=
  match c.steps.getLast? with
  | some s => s.result
  | none => ""

/-- The four step labels of a completed chunk, in the order the loop
body appends them; they record the stages the design document calls
Draft, Reflect, Revise and TerminologyCheck. -/
def stepLabels : List String :=
  ["Initial Translation", "Reflection", "Improved Translation", "Terminology Check"]

theorem processOneChunk_ok {gw : Gateway} {sl tl tt : String}
    {sg qr seltr : List String} {rsn chunk : String} {i : Nat}
    {st : PipelineState} {final : String} {det : ChunkDetails} {st' : PipelineState}
    (h : processOneChunk gw sl tl tt sg qr seltr rsn chunk i st = (.ok (final, det), st')) :
    det.chunk_number = i + 1 ∧ det.original_text = chunk ∧
    det.steps.map StepRecord.step = stepLabels ∧
    chunkFinalText det = final := by
  unfold processOneChunk at h
  split at h
  · exact absurd (congrArg Prod.fst h) (by simp)
  · split at h
    · exact absurd (congrArg Prod.fst h) (by simp)
    · split at h
      · exact absurd (congrArg Prod.fst h) (by simp)
      · split at h
        · exact absurd (congrArg Prod.fst h) (by simp)
        · rename_i initial_translation st1 h1 reflection st2 h2 improved st3 h3 final4 st4 h4
          simp only [Prod.mk.injEq, Except.ok.injEq] at h
          obtain ⟨⟨hf, hd⟩, hst⟩ := h
          subst hf hd
          refine ⟨rfl, rfl, by simp [stepLabels], by simp [chunkFinalText]⟩

theorem processChunks_ok {gw : Gateway} {sl tl tt : String}
    {sg qr seltr : List String} {rsn : String} :
    ∀ {chunks : List String} {i : Nat} {st : PipelineState}
      {finals : List String} {dets : List ChunkDetails} {st' : PipelineState},
    processChunks gw sl tl tt sg qr seltr rsn chunks i st = (.ok (finals, dets), st') →
    dets.length = chunks.length ∧
    finals = dets.map chunkFinalText ∧
    (∀ j, j < dets.length →
      (dets.getD j emptyChunkDetails).chunk_number = i + j + 1 ∧
      (dets.getD j emptyChunkDetails).original_text = chunks.getD j "") ∧
    (∀ c ∈ dets, c.steps.map StepRecord.step = stepLabels) := by
  intro chunks
  induction chunks with
  | nil =>
      intro i st finals dets st' h
      unfold processChunks at h
      simp only [Prod.mk.injEq, Except.ok.injEq] at h
      obtain ⟨⟨hf, hd⟩, _⟩ := h
      subst hf hd
      exact ⟨rfl, rfl, by intro j hj; simp at hj, by intro c hc; simp at hc⟩
  | cons chunk rest ih =>
      intro i st finals dets st' h
      unfold processChunks at h
      split at h
      · exact absurd (congrArg Prod.fst h) (by simp)
      · rename_i f d st1 h1
        split at h
        · exact absurd (congrArg Prod.fst h) (by simp)
        · rename_i fs ds st2 h2
          simp only [Prod.mk.injEq, Except.ok.injEq] at h
          obtain ⟨⟨hf, hd⟩, hst⟩ := h
          subst hf hd
          obtain ⟨hn1, ho1, hs1, hfin1⟩ := processOneChunk_ok h1
          obtain ⟨ihlen, ihmap, ihidx, ihsteps⟩ := ih h2
          refine ⟨by simp [ihlen], by simp [hfin1, ihmap], ?_, ?_⟩
          · intro j hj
            cases j with
            | zero => exact ⟨by simpa using hn1, by simpa using ho1⟩
            | succ j =>
                have hj' : j < ds.length := by simpa using hj
                obtain ⟨ha, hb⟩ := ihidx j hj'
                constructor
                · simpa [Nat.add_assoc, Nat.add_comm, Nat.add_left_comm] using ha
                · simpa using hb
          · intro c hc
            rcases List.mem_cons.mp hc with hc | hc
            · subst hc; exact hs1
            · exact ihsteps c hc

theorem translate_ok {gw : Gateway} {jp : JsonParse} {text : List String}
    {sl tl tt br : String} {st0 : PipelineState}
    {out : String} {det : SessionDetails} {st' : PipelineState}
    (h : TranslationPipeline.translate gw jp text sl tl tt br st0 = (.ok (out, det), st')) :
    ∃ setup st1 finals,
      sessionSetup gw jp text tt br { st0 with total_tokens := 0 } = (.ok setup, st1) ∧
      processChunks gw sl tl setup.resolved_type setup.style_guidelines
        setup.quality_requirements setup.selected_translators
        setup.manager_reasoning text 0 st1 = (.ok (finals, det.chunks), st') ∧
      out = String.intercalate "\n" finals ∧
      det.total_tokens = st'.total_tokens := by
  unfold TranslationPipeline.translate at h
  split at h
  · exact absurd (congrArg Prod.fst h) (by simp)
  · rename_i setup st1 h1
    split at h
    · exact absurd (congrArg Prod.fst h) (by simp)
    · rename_i finals dets st2 h2
      simp only [Prod.mk.injEq, Except.ok.injEq] at h
      obtain ⟨⟨ho, hd⟩, hst⟩ := h
      subst ho hd hst
      exact ⟨setup, st1, finals, h1, h2, rfl, rfl⟩

/-! ## Witness fixtures

`wGw` replies `("t", 5)` to every call; `wJp` fails on everything, so
the manager falls back to its default decision.  `wRun` is a completed
one-chunk "Literary" session: the gateway is called four times (manager,
Literary draft, reflection, improvement; the terminology stage is
skipped because no glossary is loaded), reporting 5 tokens each, but
only the reflection and improvement calls go through the counting
wrapper. -/

def wGw : Gateway := fun _ => .ok ("t", 5)

def wJp : JsonParse := fun _ => none

def wSt : PipelineState := ⟨0, [], []⟩

def wRun : Except PyError (String × SessionDetails) × PipelineState :=
  TranslationPipeline.translate wGw wJp ["A"] "E" "F" "Literary" "x" wSt

def wEmptySession : SessionDetails := ⟨0, "", [], [], [], "", []⟩

def wOut : String :=
  match wRun.1 with
  | .ok (o, _) => o
  | .error _ => ""

def wDet : SessionDetails :=
  match wRun.1 with
  | .ok (_, d) => d
  | .error _ => wEmptySession

def wStF : PipelineState := wRun.2

/-! ## Claims -/

/-- Claim C9: the terminology map loaded before translation is unchanged
by the translate operation — no refinement stage adds, removes, or
rewrites any source-to-target pair, whether the session completes or
aborts; the code only ever reads the dictionary (`_check_terminology`
consumes the copy returned by `get_all_terms`). -/
theorem terminology_map_unchanged_by_translate
    (gw : Gateway) (jp : JsonParse) (text : List String)
    (sl tl tt br : String) (st0 : PipelineState) :
    ((TranslationPipeline.translate gw jp text sl tl tt br st0).2).terminology_dict
      = st0.terminology_dict :=
  (translate_ext gw jp text sl tl tt br st0).1

/-- Claim C6: when the session's terminology map is empty, the
TerminologyCheck stage returns the Revise output unchanged and the state
is untouched — in particular no gateway call is recorded and no tokens
are added. -/
theorem terminology_check_noop_on_empty_map
    (gw : Gateway) (translation sl tl : String) (st : PipelineState)
    (h : st.terminology_dict = []) :
    check_terminology gw translation sl tl st = (.ok translation, st) := by
  unfold check_terminology
  rw [if_pos h]

/-- Witness for C6: a concrete no-glossary state. -/
theorem terminology_check_noop_on_empty_map_witness :
    check_terminology wGw "t" "E" "F" wSt = (.ok "t", wSt) :=
  terminology_check_noop_on_empty_map wGw "t" "E" "F" wSt rfl

/-- Claim C7: a completed session's assembled output is the
concatenation, separated by `"\n"`, of the chunks' finalized
(TerminologyCheck) texts in chunk-index order; record `i` carries
1-based chunk number `i + 1` and the `i`-th original chunk, so chunk
`i`'s finalized text occupies position `i` of the assembled output. -/
theorem assembled_output_preserves_chunk_order
    (gw : Gateway) (jp : JsonParse) (text : List String)
    (sl tl tt br : String) (st0 : PipelineState)
    (out : String) (det : SessionDetails) (st' : PipelineState)
    (h : TranslationPipeline.translate gw jp text sl tl tt br st0 = (.ok (out, det), st')) :
    out = String.intercalate "\n" (det.chunks.map chunkFinalText) ∧
    det.chunks.length = text.length ∧
    ∀ j, j < det.chunks.length →
      (det.chunks.getD j emptyChunkDetails).chunk_number = j + 1 ∧
      (det.chunks.getD j emptyChunkDetails).original_text = text.getD j "" := by
  obtain ⟨setup, st1, finals, h1, h2, hout, htok⟩ := translate_ok h
  obtain ⟨hlen, hmap, hidx, hsteps⟩ := processChunks_ok h2
  refine ⟨by rw [hout, hmap], hlen, ?_⟩
  intro j hj
  obtain ⟨ha, hb⟩ := hidx j hj
  exact ⟨by simpa using ha, hb⟩

/-- Witness for C7: the completed one-chunk session `wRun`. -/
theorem assembled_output_preserves_chunk_order_witness :
    wOut = String.intercalate "\n" (wDet.chunks.map chunkFinalText) ∧
    (wDet.chunks.getD 0 emptyChunkDetails).chunk_number = 0 + 1 ∧
    (wDet.chunks.getD 0 emptyChunkDetails).original_text = ["A"].getD 0 "" := by
  have h := assembled_output_preserves_chunk_order wGw wJp ["A"] "E" "F" "Literary" "x"
    wSt wOut wDet wStF rfl
  have hlt : 0 < wDet.chunks.length := by rw [h.2.1]; decide
  exact ⟨h.1, (h.2.2 0 hlt).1, (h.2.2 0 hlt).2⟩

/-- Claim C8: every completed chunk record in a session result has
exactly four step entries, appended in the fixed stage order (labelled
"Initial Translation", "Reflection", "Improved Translation",
"Terminology Check" — the stages the design document calls Draft,
Reflect, Revise, TerminologyCheck), with 1-based chunk numbers.  The
record returned to the caller consists of exactly these four appended
entries, so no entry is revised after being appended. -/
theorem chunk_steps_fixed_four_stages
    (gw : Gateway) (jp : JsonParse) (text : List String)
    (sl tl tt br : String) (st0 : PipelineState)
    (out : String) (det : SessionDetails) (st' : PipelineState)
    (h : TranslationPipeline.translate gw jp text sl tl tt br st0 = (.ok (out, det), st')) :
    (∀ c ∈ det.chunks, c.steps.map StepRecord.step = stepLabels ∧ c.steps.length = 4) ∧
    ∀ j, j < det.chunks.length →
      (det.chunks.getD j emptyChunkDetails).chunk_number = j + 1 := by
  obtain ⟨setup, st1, finals, h1, h2, hout, htok⟩ := translate_ok h
  obtain ⟨hlen, hmap, hidx, hsteps⟩ := processChunks_ok h2
  constructor
  · intro c hc
    have hs := hsteps c hc
    refine ⟨hs, ?_⟩
    have hl := congrArg List.length hs
    simpa [stepLabels] using hl
  · intro j hj
    have := (hidx j hj).1
    simpa using this

/-- Witness for C8: the completed one-chunk session `wRun`. -/
theorem chunk_steps_fixed_four_stages_witness :
    (wDet.chunks.getD 0 emptyChunkDetails).steps.map StepRecord.step = stepLabels ∧
    (wDet.chunks.getD 0 emptyChunkDetails).steps.length = 4 := by
  have h := chunk_steps_fixed_four_stages wGw wJp ["A"] "E" "F" "Literary" "x"
    wSt wOut wDet wStF rfl
  have hmem : wDet.chunks.getD 0 emptyChunkDetails ∈ wDet.chunks := by decide
  exact h.1 (wDet.chunks.getD 0 emptyChunkDetails) hmem

/-- Claim C2, counterexample: a completed one-chunk "Literary" session
in which the gateway reports 5 tokens on every call.  Four gateway calls
are made (Style Manager, Literary-specialist draft, reflection,
improvement; the terminology stage is skipped), so the per-call token
reports sum to 20, but the session result's `total_tokens` is 10: the
Style Manager's call (`ManagerAgent._call_xai_api`) and the specialist
draft call (`BaseTranslator.call_xai_api`) never add to
`self.total_tokens`. -/
theorem total_tokens_gateway_sum_counterexample :
    TranslationPipeline.translate wGw wJp ["A"] "E" "F" "Literary" "x" wSt
      = (.ok (wOut, wDet), wStF) ∧
    wDet.total_tokens = 10 ∧
    allTokenSum wStF.trace = 20 ∧
    wDet.total_tokens ≠ allTokenSum wStF.trace :=
  ⟨rfl, rfl, rfl, by decide⟩

/-- Claim C2, amended: for a completed session, `total_tokens` equals
the sum of the token counts reported by the gateway calls issued through
the pipeline's own counting wrapper (`TranslationPipeline._call_xai_api`:
the Reflect, Revise and TerminologyCheck calls, and the Draft call only
when the generic default prompt is used); tokens reported by the Style
Manager's call and by specialist-profile Draft calls are not included.
`total_tokens` is never negative. -/
theorem total_tokens_counted_sum
    (gw : Gateway) (jp : JsonParse) (text : List String)
    (sl tl tt br : String) (st0 : PipelineState)
    (out : String) (det : SessionDetails) (st' : PipelineState)
    (h0 : st0.trace = [])
    (h : TranslationPipeline.translate gw jp text sl tl tt br st0 = (.ok (out, det), st')) :
    det.total_tokens = countedSum st'.trace ∧ 0 ≤ det.total_tokens := by
  obtain ⟨setup, st1, finals, h1, h2, hout, htok⟩ := translate_ok h
  have hext := translate_ext gw jp text sl tl tt br st0
  rw [h] at hext
  obtain ⟨hdict, Δ, htr, hsum⟩ := hext
  simp only [h0] at htr
  constructor
  · rw [htok, hsum, htr]
    simp
  · exact Nat.zero_le _

/-- Witness for the amended C2: the completed one-chunk session
`wRun`. -/
theorem total_tokens_counted_sum_witness :
    wSt.trace = ([] : List GatewayCall) ∧
    wDet.total_tokens = countedSum wStF.trace ∧ 0 ≤ wDet.total_tokens :=
  ⟨rfl,
   (total_tokens_counted_sum wGw wJp ["A"] "E" "F" "Literary" "x" wSt
      wOut wDet wStF rfl rfl).1,
   (total_tokens_counted_sum wGw wJp ["A"] "E" "F" "Literary" "x" wSt
      wOut wDet wStF rfl rfl).2⟩

theorem processChunks_prefix_then_fail {gw : Gateway} {sl tl tt : String}
    {sg qr seltr : List String} {rsn : String} :
    ∀ {pre : List String} {c : String} {post : List String} {i : Nat}
      {st : PipelineState} {finals : List String} {dets : List ChunkDetails}
      {st1 : PipelineState} {e : PyError} {st2 : PipelineState},
    processChunks gw sl tl tt sg qr seltr rsn pre i st = (.ok (finals, dets), st1) →
    processOneChunk gw sl tl tt sg qr seltr rsn c (i + pre.length) st1 = (.error e, st2) →
    processChunks gw sl tl tt sg qr seltr rsn (pre ++ c :: post) i st = (.error e, st2) := by
  intro pre
  induction pre with
  | nil =>
      intro c post i st finals dets st1 e st2 hok hfail
      unfold processChunks at hok
      simp only [Prod.mk.injEq, Except.ok.injEq] at hok
      obtain ⟨_, hst⟩ := hok
      subst hst
      simp only [List.length_nil, Nat.add_zero] at hfail
      show processChunks gw sl tl tt sg qr seltr rsn (c :: post) i st = (.error e, st2)
      unfold processChunks
      split
      · rename_i e1 stX heq
        rw [hfail] at heq
        simp only [Prod.mk.injEq, Except.error.injEq] at heq
        obtain ⟨he, hs⟩ := heq
        rw [he, hs]
      · rename_i f d stX heq
        rw [hfail] at heq
        exact absurd (congrArg Prod.fst heq) (by simp)
  | cons a pre ih =>
      intro c post i st finals dets st1 e st2 hok hfail
      unfold processChunks at hok
      split at hok
      · exact absurd (congrArg Prod.fst hok) (by simp)
      · rename_i f d stA h1
        split at hok
        · exact absurd (congrArg Prod.fst hok) (by simp)
        · rename_i fs ds stB h2
          simp only [Prod.mk.injEq, Except.ok.injEq] at hok
          obtain ⟨_, hst⟩ := hok
          rw [hst] at h2
          have hfail' : processOneChunk gw sl tl tt sg qr seltr rsn c
              ((i + 1) + pre.length) st1 = (.error e, st2) := by
            have hidx : (i + 1) + pre.length = i + (a :: pre).length := by
              simp [List.length_cons]; omega
            rw [hidx]
            exact hfail
          have hrec := @ih c post (i + 1) stA fs ds st1 e st2 h2 hfail'
          show processChunks gw sl tl tt sg qr seltr rsn
            (a :: (pre ++ c :: post)) i st = (.error e, st2)
          unfold processChunks
          split
          · rename_i e1 stX heq
            rw [h1] at heq
            exact absurd (congrArg Prod.fst heq) (by simp)
          · rename_i f1 d1 stX heq
            rw [h1] at heq
            simp only [Prod.mk.injEq, Except.ok.injEq] at heq
            obtain ⟨⟨hf1, hd1⟩, hsX⟩ := heq
            subst hf1 hd1 hsX
            split
            · rename_i e2 stY heq2
              rw [hrec] at heq2
              simp only [Prod.mk.injEq, Except.error.injEq] at heq2
              obtain ⟨he2, hs2⟩ := heq2
              rw [he2, hs2]
            · rename_i fs2 ds2 stY heq2
              rw [hrec] at heq2
              exact absurd (congrArg Prod.fst heq2) (by simp)

/-- Claim C3: a gateway failure at any refinement stage of any chunk
makes `translate` return exactly that error: the session aborts, the
error propagates to the caller unchanged, and — since the error carries
no payload — no translated text, no per-chunk records (including the
records of the chunks completed before the failure, `finals`/`dets`
below, which are dropped), and no metrics are returned. -/
theorem stage_failure_aborts_session
    (gw : Gateway) (jp : JsonParse) (sl tl tt br : String) (st0 : PipelineState)
    (pre : List String) (c : String) (post : List String)
    (setup : SetupResult) (st1 : PipelineState)
    (finals : List String) (dets : List ChunkDetails) (st2 : PipelineState)
    (e : PyError) (st3 : PipelineState)
    (hsetup : sessionSetup gw jp (pre ++ c :: post) tt br
      { st0 with total_tokens := 0 } = (.ok setup, st1))
    (hpre : processChunks gw sl tl setup.resolved_type setup.style_guidelines
      setup.quality_requirements setup.selected_translators
      setup.manager_reasoning pre 0 st1 = (.ok (finals, dets), st2))
    (hfail : processOneChunk gw sl tl setup.resolved_type setup.style_guidelines
      setup.quality_requirements setup.selected_translators
      setup.manager_reasoning c pre.length st2 = (.error e, st3)) :
    TranslationPipeline.translate gw jp (pre ++ c :: post) sl tl tt br st0
      = (.error e, st3) := by
  have hfail0 : processOneChunk gw sl tl setup.resolved_type setup.style_guidelines
      setup.quality_requirements setup.selected_translators
      setup.manager_reasoning c (0 + pre.length) st2 = (.error e, st3) := by
    rw [Nat.zero_add]
    exact hfail
  have hrun := @processChunks_prefix_then_fail gw sl tl setup.resolved_type
    setup.style_guidelines setup.quality_requirements setup.selected_translators
    setup.manager_reasoning pre c post 0 st1 finals dets st2 e st3 hpre hfail0
  unfold TranslationPipeline.translate
  split
  · rename_i e1 stX heq
    rw [hsetup] at heq
    exact absurd (congrArg Prod.fst heq) (by simp)
  · rename_i setup1 stX heq
    rw [hsetup] at heq
    simp only [Prod.mk.injEq, Except.ok.injEq] at heq
    obtain ⟨hs1, hsX⟩ := heq
    subst hs1 hsX
    split
    · rename_i e2 stY heq2
      rw [hrun] at heq2
      simp only [Prod.mk.injEq, Except.error.injEq] at heq2
      obtain ⟨he2, hs2⟩ := heq2
      rw [he2, hs2]
    · rename_i fs ds stY heq2
      rw [hrun] at heq2
      exact absurd (congrArg Prod.fst heq2) (by simp)

/-- Gateway for the C3 scenario: fails exactly on the Reflect-stage
prompt that embeds chunk "B2" (reflection prompts are the only
"Review the following translation and provide..."-prefixed calls in a
glossary-free session) and replies `("t", 5)` otherwise. -/
def c3Gw : Gateway := fun msgs =>
  match msgs with
  | [_, u] =>
      if "Review".data.isPrefixOf u.content.data && strIn "B2" u.content then
        .error (.apiError "boom")
      else .ok ("t", 5)
  | _ => .ok ("t", 5)

def c3EmptySetup : SetupResult := ⟨"", [], [], [], ""⟩

def c3SetupRun : Except PyError SetupResult × PipelineState :=
  sessionSetup c3Gw wJp ["A1", "B2", "C3"] "Business" "x" { wSt with total_tokens := 0 }

def c3Setup : SetupResult :=
  match c3SetupRun.1 with
  | .ok s => s
  | .error _ => c3EmptySetup

def c3St1 : PipelineState := c3SetupRun.2

def c3PreRun : Except PyError (List String × List ChunkDetails) × PipelineState :=
  processChunks c3Gw "E" "F" c3Setup.resolved_type c3Setup.style_guidelines
    c3Setup.quality_requirements c3Setup.selected_translators
    c3Setup.manager_reasoning ["A1"] 0 c3St1

def c3Finals : List String :=
  match c3PreRun.1 with
  | .ok (f, _) => f
  | .error _ => []

def c3Dets : List ChunkDetails :=
  match c3PreRun.1 with
  | .ok (_, d) => d
  | .error _ => []

def c3St2 : PipelineState := c3PreRun.2

def c3FailRun : Except PyError (String × ChunkDetails) × PipelineState :=
  processOneChunk c3Gw "E" "F" c3Setup.resolved_type c3Setup.style_guidelines
    c3Setup.quality_requirements c3Setup.selected_translators
    c3Setup.manager_reasoning "B2" (["A1"] : List String).length c3St2

def c3St3 : PipelineState := c3FailRun.2

set_option maxRecDepth 8192 in
/-- Witness for C3: the design document's scenario — a 3-chunk session
whose gateway raises a transport error during the Reflect stage of chunk
2 of 3; `translate` returns exactly that error, so chunk 1's completed
record is not surfaced. -/
theorem stage_failure_aborts_session_witness :
    TranslationPipeline.translate c3Gw wJp (["A1"] ++ "B2" :: ["C3"])
      "E" "F" "Business" "x" wSt = (.error (.apiError "boom"), c3St3) :=
  stage_failure_aborts_session c3Gw wJp "E" "F" "Business" "x" wSt
    ["A1"] "B2" ["C3"] c3Setup c3St1 c3Finals c3Dets c3St2 (.apiError "boom") c3St3
    rfl rfl rfl

/-- The parse-failure condition of `_parse_response`: either no brace
pair is found in the response, or `json.loads` fails on the extracted
slice. -/
def parseFails (jp : JsonParse) (response : String) : Prop :=
  match braceExtract response with
  | none => True
  | some s => jp s = none

/-- The session decision produced by `analyze_brief` when the manager's
reply is non-parseable: `_parse_response`'s documented default, with the
"General Translator" placeholder resolved to the Master profile by the
mapping loop and the mapping note appended to the reasoning. -/
def manager_default_decision : ManagerAnalysis :=
  { selected_translators := some ["Master Translator"],
    style_guidelines := some ["Maintain professional tone", "Ensure accuracy"],
    quality_requirements := some ["High accuracy", "Natural flow"],
    reasoning := some ("Using default settings due to parsing error" ++ mapping_note),
    detected_style := none }

/-- Claim C4: whatever the (non-parseable) shape of the Style Manager's
reply, `analyze_brief` returns the same fixed default decision — one
general-purpose profile and the fixed generic guideline and requirement
lists — as a successful (`.ok`) result, so the session proceeds instead
of failing; the only state change is the recording of the single
manager call. -/
theorem manager_parse_failure_default_decision
    (gw : Gateway) (jp : JsonParse) (tt br src : String) (st : PipelineState)
    (resp : String) (tok : Nat)
    (hgw : gw (manager_messages tt br src) = .ok (resp, tok))
    (hfail : parseFails jp resp) :
    analyze_brief gw jp tt br src st =
      (.ok manager_default_decision,
       { st with trace := st.trace ++ [⟨manager_messages tt br src, tok, false⟩] }) := by
  have hcall : callUncounted gw (manager_messages tt br src) st =
      (.ok resp, { st with trace := st.trace ++ [⟨manager_messages tt br src, tok, false⟩] }) := by
    unfold callUncounted
    rw [hgw]
  have hpr : parse_response jp resp = default_parse_analysis := by
    unfold parse_response
    unfold parseFails at hfail
    split
    · rfl
    · rename_i s hbe
      rw [hbe] at hfail
      have hjp : jp s = none := hfail
      rw [hjp]
  unfold analyze_brief
  split
  · rename_i e st1 heq
    rw [hcall] at heq
    exact absurd (congrArg Prod.fst heq) (by simp)
  · rename_i response st1 heq
    rw [hcall] at heq
    simp only [Prod.mk.injEq, Except.ok.injEq] at heq
    obtain ⟨hresp, hst1⟩ := heq
    subst hresp hst1
    rw [hpr]
    rfl

/-- Witness for C4: the gateway replies "t" (no braces), the JSON parser
rejects everything. -/
theorem manager_parse_failure_default_decision_witness :
    wGw (manager_messages "Business" "b" "") = .ok ("t", 5) ∧
    parseFails wJp "t" ∧
    analyze_brief wGw wJp "Business" "b" "" wSt =
      (.ok manager_default_decision,
       { wSt with trace := wSt.trace ++ [⟨manager_messages "Business" "b" "", 5, false⟩] }) :=
  ⟨rfl, True.intro,
   manager_parse_failure_default_decision wGw wJp "Business" "b" "" wSt "t" 5 rfl True.intro⟩

/-- Claim C5: a profile name returned by the Style Manager's model call
that matches a registry entry case-insensitively by substring (the
registered type name occurring inside the returned name, as the mapping
loop tests) resolves to that registered entry's profile; a name matching
no registry entry resolves to "Master Translator". -/
theorem profile_resolution_substring_match (t : String) :
    ((∃ p ∈ available_translators, strIn (pyLower p.1) (pyLower t) = true) →
      ∃ p ∈ available_translators, strIn (pyLower p.1) (pyLower t) = true ∧
        map_translator_name t = p.2) ∧
    ((∀ p ∈ available_translators, ¬ strIn (pyLower p.1) (pyLower t) = true) →
      map_translator_name t = "Master Translator") := by
  constructor
  · intro hex
    unfold map_translator_name
    cases hfind : available_translators.find?
        (fun p => strIn (pyLower p.1) (pyLower t)) with
    | none =>
        obtain ⟨p, hp, hm⟩ := hex
        have hnone := List.find?_eq_none.mp hfind p hp
        simp [hm] at hnone
    | some q =>
        refine ⟨q, List.mem_of_find?_eq_some hfind, ?_, rfl⟩
        simpa using List.find?_some hfind
  · intro hall
    unfold map_translator_name
    cases hfind : available_translators.find?
        (fun p => strIn (pyLower p.1) (pyLower t)) with
    | none => rfl
    | some q =>
        have hq := List.find?_some hfind
        have hmem := List.mem_of_find?_eq_some hfind
        exact absurd (by simpa using hq) (hall q hmem)

/-- Witness for C5: "legal eagle" contains the registered type name
"Legal" case-insensitively and resolves to the Legal profile; "zzz"
matches nothing and falls back to "Master Translator". -/
theorem profile_resolution_substring_match_witness :
    (∃ p ∈ available_translators, strIn (pyLower p.1) (pyLower "legal eagle") = true ∧
      map_translator_name "legal eagle" = p.2) ∧
    map_translator_name "zzz" = "Master Translator" :=
  ⟨(profile_resolution_substring_match "legal eagle").1
     ⟨("Legal", "Legal Translator"), by decide, by decide⟩,
   (profile_resolution_substring_match "zzz").2 (by decide)⟩

/-- Gateway for the C1 scenario: replies `"\x7b\x7d"` (a parseable JSON
placeholder) to the manager's call and echoes the system-role text of
every other call, so the reply identifies which translator issued the
call. -/
def c1Gw : Gateway := fun msgs =>
  match msgs with
  | m :: _ =>
      if m.content = manager_system_role then .ok ("\x7b\x7d", 1)
      else .ok (m.content, 1)
  | [] => .ok ("", 1)

/-- JSON oracle for the C1 scenario: the manager's reply parses to a
decision selecting exactly the News profile, with non-empty guideline
and requirement lists. -/
def c1Jp : JsonParse := fun _ =>
  some { selected_translators := some ["News"],
         style_guidelines := some ["g"],
         quality_requirements := some ["q"],
         reasoning := some "r",
         detected_style := none }

def c1Run : Except PyError (String × SessionDetails) × PipelineState :=
  TranslationPipeline.translate c1Gw c1Jp ["T"] "E" "F" "News" "b" wSt

def c1Selected : Option (List String) :=
  match c1Run.1 with
  | .ok (_, d) => some d.selected_translators
  | .error _ => none

def c1DraftResult : Option String :=
  match c1Run.1 with
  | .ok (_, d) =>
      match d.chunks with
      | c :: _ =>
          match c.steps with
          | s :: _ => some s.result
          | [] => none
      | [] => none
  | .error _ => none

set_option maxRecDepth 8192 in
/-- Claim C1, counterexample: a completed session with resolved type
"News" whose Style Manager selected exactly one profile, the News
Translator, and whose guideline/requirement lists are non-empty.  Under
a gateway that echoes each call's system-role text, the Draft step's
recorded result is the Master Translator's system role — not the News
Translator's — because `_initial_translation_with_specialist` routes to
the Master translator whenever both lists are non-empty, never
consulting the selected profile; the News specialist's own translate
operation on the same state returns a different reply. -/
theorem draft_stage_profile_counterexample :
    c1Selected = some ["News Translator"] ∧
    c1DraftResult = some master_system_role ∧
    (news_translator_translate c1Gw "T" "E" "F" wSt).1 = .ok news_system_role ∧
    master_system_role ≠ news_system_role :=
  ⟨rfl, rfl, rfl, by decide⟩

/-- Claim C1, amended: the Draft stage dispatches only on the resolved
translation type and the two manager lists — the Literary specialist for
type "literary", the Legal specialist for "legal", the Master translator
for "master translator" or whenever both the style-guideline and the
quality-requirement lists are non-empty, and otherwise the generic
default translation prompt through the pipeline's own wrapper; no other
specialist profile's translate operation is ever invoked by the Draft
stage. -/
theorem draft_stage_dispatch (gw : Gateway)
    (text sl tl tt : String) (sg qr : List String) (st : PipelineState) :
    (pyLower tt = "literary" →
      initial_translation_with_specialist gw text sl tl tt sg qr st =
        literary_translator_translate gw text sl tl st) ∧
    (pyLower tt ≠ "literary" → pyLower tt = "legal" →
      initial_translation_with_specialist gw text sl tl tt sg qr st =
        legal_translator_translate gw text sl tl st) ∧
    (pyLower tt ≠ "literary" → pyLower tt ≠ "legal" →
      (pyLower tt = "master translator" ∨ (sg ≠ [] ∧ qr ≠ [])) →
      initial_translation_with_specialist gw text sl tl tt sg qr st =
        master_translator_translate gw text sl tl sg qr st) ∧
    (pyLower tt ≠ "literary" → pyLower tt ≠ "legal" →
      ¬(pyLower tt = "master translator" ∨ (sg ≠ [] ∧ qr ≠ [])) →
      initial_translation_with_specialist gw text sl tl tt sg qr st =
        callCounted gw
          [⟨"system", pipeline_system_role⟩,
           ⟨"user", format_prompt_for_translation text sl tl⟩] st) := by
  refine ⟨?_, ?_, ?_, ?_⟩
  · intro h1
    unfold initial_translation_with_specialist
    rw [if_pos h1]
  · intro h1 h2
    unfold initial_translation_with_specialist
    rw [if_neg h1, if_pos h2]
  · intro h1 h2 h3
    unfold initial_translation_with_specialist
    rw [if_neg h1, if_neg h2, if_pos h3]
  · intro h1 h2 h3
    unfold initial_translation_with_specialist
    rw [if_neg h1, if_neg h2, if_neg h3]

/-- Witness for the amended C1: resolved type "News" with non-empty
lists routes the Draft stage to the Master translator. -/
theorem draft_stage_dispatch_witness :
    initial_translation_with_specialist c1Gw "T" "E" "F" "News" ["g"] ["q"] wSt =
      master_translator_translate c1Gw "T" "E" "F" ["g"] ["q"] wSt :=
  (draft_stage_dispatch c1Gw "T" "E" "F" "News" ["g"] ["q"] wSt).2.2.1
    (by decide) (by decide) (by decide)

theorem dictGet_insert_ne (k v k' : String) (h : k ≠ k') :
    ∀ m : TermMap, dictGet (dictInsert m k v) k' = dictGet m k' := by
  intro m
  induction m with
  | nil =>
      show dictGet [(k, v)] k' = dictGet [] k'
      simp [dictGet, h]
  | cons p t ih =>
      show dictGet (if p.1 == k then (k, v) :: t else p :: dictInsert t k v) k'
        = dictGet (p :: t) k'
      by_cases hp : p.1 = k
      · simp [hp, dictGet, h]
      · simp only [beq_iff_eq, hp, if_false]
        by_cases hp' : p.1 = k'
        · simp [dictGet, hp']
        · simp [dictGet, hp', ih]

theorem load_from_txt_preserves (k : String) :
    ∀ (lines : List String) (m : TermMap),
    (∀ l ∈ lines, ∀ p, parseTxtLine l = some p → p.1 ≠ k) →
    dictGet (load_from_txt lines m) k = dictGet m k := by
  intro lines
  induction lines with
  | nil => intro m _; rfl
  | cons l rest ih =>
      intro m hall
      show dictGet (load_from_txt rest
        (match parseTxtLine l with
         | none => m
         | some p => dictInsert m p.1 p.2)) k = dictGet m k
      cases hp : parseTxtLine l with
      | none =>
          exact ih m (fun x hx => hall x (List.mem_cons_of_mem _ hx))
      | some p =>
          rw [ih (dictInsert m p.1 p.2) (fun x hx => hall x (List.mem_cons_of_mem _ hx))]
          exact dictGet_insert_ne p.1 p.2 k (hall l (List.mem_cons_self _ _) p hp) m

/-- Claim C10: loading a `.txt` terminology file merges the parsed pairs
into the already-loaded dictionary without clearing it — any previously
loaded pair whose key no parsed line overwrites is still present
afterwards — whereas loading a `.csv`, `.json`, `.xlsx` or `.xls` file
replaces the whole dictionary with the newly parsed rows, independent of
the previous contents. -/
theorem txt_load_merges_tabular_load_replaces (f : TermFile) (m : TermMap) :
    (fileExt f.path = "txt" →
      load_terminology f m = .ok (load_from_txt f.lines m) ∧
      ∀ k, (∀ l ∈ f.lines, ∀ p, parseTxtLine l = some p → p.1 ≠ k) →
        dictGet (load_from_txt f.lines m) k = dictGet m k) ∧
    ((fileExt f.path = "csv" ∨ fileExt f.path = "json" ∨
        fileExt f.path = "xlsx" ∨ fileExt f.path = "xls") →
      ∀ rows, f.parsedRows = some rows →
        load_terminology f m = .ok (dictOfPairs rows)) := by
  constructor
  · intro h
    constructor
    · unfold load_terminology
      rw [h]
      rfl
    · intro k hk
      exact load_from_txt_preserves k f.lines m hk
  · intro hext rows hrows
    unfold load_terminology load_from_csv load_from_json load_from_excel
    rcases hext with h | h | h | h <;> rw [h, hrows] <;> rfl

/-- Witness for C10: a `.txt` load over the pre-loaded pair
`("x", "y")` keeps that pair while adding the parsed line. -/
theorem txt_load_merges_tabular_load_replaces_witness :
    load_terminology ⟨"g.txt", ["a:b"], none⟩ [("x", "y")] =
      .ok (load_from_txt ["a:b"] [("x", "y")]) ∧
    dictGet (load_from_txt ["a:b"] [("x", "y")]) "x" = dictGet [("x", "y")] "x" := by
  have h := (txt_load_merges_tabular_load_replaces ⟨"g.txt", ["a:b"], none⟩ [("x", "y")]).1 rfl
  refine ⟨h.1, h.2 "x" ?_⟩
  intro l hl p hp
  have hl' : l = "a:b" := by simpa using hl
  subst hl'
  have : parseTxtLine "a:b" = some ("a", "b") := by decide
  rw [this] at hp
  have hp' : ("a", "b") = p := by simpa using hp
  rw [← hp']
  decide
